import Mathlib

/-!
Verification of the image-quality assessment and visual-explanation pipeline
of the fake-product detection backend.

The Python sources are shallowly embedded: images are rectangular grids of
8-bit RGB pixels (`List (List (Nat × Nat × Nat))`), numeric computation is
carried out over `ℚ` (modelling the real-valued float arithmetic of the
source), fallible functions return `Except`, and calls into external image
libraries (PIL decoding, OpenCV line detection, CLAHE, bilateral filtering,
Lanczos resampling) are modelled as explicit parameters that the theorems
quantify over.
-/

namespace FakeDetect

/-- Arithmetic mean of a list of rationals (`np.mean`); `0` on the empty
list, mirroring that the pipeline only applies it to nonempty data. -/
def meanQ (xs : List ℚ) : ℚ := xs.sum / xs.length

/-- Population variance of a list of rationals (`np.var` /
`ndarray.var()`): mean squared deviation from the mean. -/
def varQ (xs : List ℚ) : ℚ :=
  ((xs.map (fun x => (x - meanQ xs) ^ 2)).sum) / xs.length

theorem varQ_nonneg (xs : List ℚ) : 0 ≤ varQ xs := by
  unfold varQ
  apply div_nonneg
  · apply List.sum_nonneg
    intro x hx
    obtain ⟨y, _, rfl⟩ := List.mem_map.mp hx
    positivity
  · exact_mod_cast Nat.zero_le _

/-- One 8-bit RGB pixel. -/
abbrev Pixel := Nat × Nat × Nat

/-- A decoded image: rows of RGB pixels (`np.ndarray` of shape `(h, w, 3)`,
dtype uint8). -/
abbrev Grid := List (List Pixel)

/-- A float image (after pixel normalization): rows of RGB triples in `ℚ`. -/
abbrev QGrid := List (List (ℚ × ℚ × ℚ))

/-- Number of rows (`image.shape[0]`). -/
def gridH (g : List (List α)) : Nat := g.length

/-- Number of columns (`image.shape[1]`), read off the first row. -/
def gridW (g : List (List α)) : Nat := (g.headD []).length

/-- A well-formed `h × w` array: every row has the same length. -/
def Rect (g : List (List α)) (h w : Nat) : Prop :=
  g.length = h ∧ ∀ row ∈ g, row.length = w

instance (g : List (List α)) (h w : Nat) : Decidable (Rect g h w) := by
  unfold Rect; infer_instance

/-- OpenCV `cv2.cvtColor(_, COLOR_RGB2GRAY)` on uint8 data: fixed-point
luminance `(R*4899 + G*9617 + B*1868 + 2^13) >> 14`. -/
def grayPix (p : Pixel) : Nat :=
  (p.1 * 4899 + p.2.1 * 9617 + p.2.2 * 1868 + 8192) / 16384

/-- Grayscale conversion of a whole image. -/
def grayOf (img : Grid) : List (List Nat) := img.map (fun row => row.map grayPix)

/-- OpenCV `BORDER_REFLECT_101` index folding for a 1-pixel border
(valid for extents ≥ 2, which validation guarantees). -/
def refl101 (i : Int) (n : Nat) : Nat :=
  if i < 0 then (-i).toNat
  else if i ≥ (n : Int) then (2 * (n : Int) - 2 - i).toNat
  else i.toNat

/-- Pixel access in a grayscale image with reflected border indices. -/
def grayAt (g : List (List Nat)) (i j : Int) : Int :=
  ((g.getD (refl101 i (gridH g)) []).getD (refl101 j (gridW g)) 0 : Nat)

/-- `cv2.Laplacian(gray, cv2.CV_64F)` response at one pixel: the 3×3
kernel `[[0,1,0],[1,-4,1],[0,1,0]]` with `BORDER_REFLECT_101`. -/
def lapAt (g : List (List Nat)) (i j : Nat) : Int :=
  grayAt g ((i : Int) - 1) j + grayAt g ((i : Int) + 1) j +
    grayAt g i ((j : Int) - 1) + grayAt g i ((j : Int) + 1) -
    4 * grayAt g i j

/-- All Laplacian responses of a grayscale image, row-major. -/
def lapList (g : List (List Nat)) : List ℚ :=
  (List.range (gridH g)).flatMap
    (fun i => (List.range (gridW g)).map (fun j => (lapAt g i j : ℚ)))

/-- `cv2.Laplacian(gray, cv2.CV_64F).var()`: variance of the Laplacian
response, the blur/sharpness proxy used throughout the pipeline. -/
def lapVar (g : List (List Nat)) : ℚ := varQ (lapList g)

theorem lapVar_nonneg (g : List (List Nat)) : 0 ≤ lapVar g := varQ_nonneg _

/-- All grayscale values of an image, row-major, as rationals. -/
def grayVals (img : Grid) : List ℚ :=
  ((grayOf img).flatten).map (fun v => (v : ℚ))

/-- Mean luminance `np.mean(gray)`. -/
def brightnessOf (img : Grid) : ℚ := meanQ (grayVals img)

/-- Fraction of very bright pixels `np.sum(gray > 240) / gray.size`. -/
def brightRatio (img : Grid) : ℚ :=
  ((grayOf img).flatten.countP (fun v => 240 < v) : ℚ) /
    ((grayOf img).flatten.length : ℚ)

/-- `ImagePreprocessor.assess_image_quality` (preprocessor.py:131-168):
blur score from Laplacian variance, glare from bright-pixel ratio and mean
brightness, glare penalty ×0.8. Returns `(quality_score, has_glare)`. -/
def assessImageQuality (img : Grid) : ℚ × Bool :=
  let gray := grayOf img
  let laplacianVar := lapVar gray
  let blurScore := min (laplacianVar / 500) 1
  let brightness := brightnessOf img
  let brightPixels := brightRatio img
  let hasGlare : Bool := decide (brightPixels > 1/20 ∧ brightness > 180)
  let qualityScore := blurScore
  let qualityScore := if hasGlare then qualityScore * (4/5) else qualityScore
  (qualityScore, hasGlare)

/-- C3: for every well-formed decoded RGB image, `assess_image_quality`
returns `quality_score = min(laplacian_variance / 500, 1)`, multiplied by
`0.8` exactly when `has_glare` holds; `has_glare` holds iff the fraction of
grayscale pixels above 240 exceeds 0.05 and the mean grayscale value
exceeds 180; and `quality_score ∈ [0,1]`. -/
theorem assess_image_quality_spec (img : Grid) (h w : Nat)
    (hrect : Rect img h w) (hh : 2 ≤ h) (hw : 2 ≤ w) :
    (assessImageQuality img).1 =
      (if (assessImageQuality img).2 then
        min (lapVar (grayOf img) / 500) 1 * (4/5)
      else min (lapVar (grayOf img) / 500) 1) ∧
    ((assessImageQuality img).2 = true ↔
      (brightRatio img > 1/20 ∧ brightnessOf img > 180)) ∧
    0 ≤ (assessImageQuality img).1 ∧ (assessImageQuality img).1 ≤ 1 := by
  have hblur0 : 0 ≤ min (lapVar (grayOf img) / 500) 1 := by
    apply le_min
    · exact div_nonneg (lapVar_nonneg _) (by norm_num)
    · norm_num
  have hblur1 : min (lapVar (grayOf img) / 500) 1 ≤ 1 := min_le_right _ _
  refine ⟨?_, ?_, ?_, ?_⟩
  · simp only [assessImageQuality]
  · simp only [assessImageQuality, decide_eq_true_eq]
  · simp only [assessImageQuality]
    split
    · nlinarith
    · exact hblur0
  · simp only [assessImageQuality]
    split
    · nlinarith
    · exact hblur1

/-- Witness for C3 at a concrete 2×2 image. -/
theorem assess_image_quality_spec_witness :
    Rect ([[(0,0,0),(255,255,255)],[(255,255,255),(0,0,0)]] : Grid) 2 2 ∧
    0 ≤ (assessImageQuality
      ([[(0,0,0),(255,255,255)],[(255,255,255),(0,0,0)]] : Grid)).1 :=
  ⟨by decide,
   (assess_image_quality_spec
      ([[(0,0,0),(255,255,255)],[(255,255,255),(0,0,0)]] : Grid) 2 2
      (by decide) (by decide) (by decide)).2.2.1⟩

/-- The IEEE double `np.pi` as an exact rational (`884279719003555 / 2^48`),
the value the source's angle thresholds are taken against. -/
def piQ : ℚ := 884279719003555 / 281474976710656

/-- `ExplainabilityModule._compute_text_alignment`
(explainability.py:240-272), modelled from the point where the external
line detector (`cv2.Canny` + `cv2.HoughLinesP`) has produced its line
segments: `angles` is the list of `|atan2(dy, dx)|` values of the detected
lines.  No lines → neutral `0.5`; otherwise the fraction of lines within
0.2 rad of horizontal (angle 0) or vertical (angle π/2). -/
def computeTextAlignment (angles : List ℚ) : ℚ :=
  if angles.isEmpty then 1/2
  else
    let horizontal := angles.countP (fun θ => decide (|θ| < 1/5))
    let vertical := angles.countP (fun θ => decide (|θ - piQ/2| < 1/5))
    let aligned := horizontal + vertical
    if 0 < angles.length then (aligned : ℚ) / (angles.length : ℚ) else 1/2

theorem countP_disjoint_le (l : List α) (p q : α → Bool)
    (hpq : ∀ x, p x = true → q x = true → False) :
    l.countP p + l.countP q ≤ l.length := by
  induction l with
  | nil => simp
  | cons a l ih =>
    rw [List.countP_cons, List.countP_cons, List.length_cons]
    by_cases hp : p a = true
    · have hq : ¬ q a = true := fun hq => hpq a hp hq
      simp [hp, hq]; omega
    · simp only [Bool.not_eq_true] at hp
      simp [hp]
      rcases Bool.eq_false_or_eq_true (q a) with hq | hq <;> simp [hq] <;> omega

theorem computeTextAlignment_bounds (angles : List ℚ) :
    0 ≤ computeTextAlignment angles ∧ computeTextAlignment angles ≤ 1 := by
  unfold computeTextAlignment
  by_cases he : angles.isEmpty
  · simp [he]; norm_num
  · have he' : angles.isEmpty = false := by
      rwa [Bool.not_eq_true] at he
    have hlen : 0 < angles.length := by
      cases angles with
      | nil => simp at he
      | cons a l => simp
    have hdisj : ∀ θ : ℚ, decide (|θ| < 1/5) = true →
        decide (|θ - piQ/2| < 1/5) = true → False := by
      intro θ h1 h2
      rw [decide_eq_true_eq] at h1 h2
      have ha : θ < 1/5 := lt_of_abs_lt h1
      have hb : -(1/5) < θ - piQ/2 := neg_lt_of_abs_lt h2
      have : (2:ℚ)/5 < piQ/2 := by norm_num [piQ]
      linarith
    have hcount := countP_disjoint_le angles
      (fun θ => decide (|θ| < 1/5)) (fun θ => decide (|θ - piQ/2| < 1/5)) hdisj
    have hlenQ : (0:ℚ) < (angles.length : ℚ) := by exact_mod_cast hlen
    simp only [he', Bool.false_eq_true, if_false, if_pos hlen]
    constructor
    · positivity
    · rw [div_le_one hlenQ]
      exact_mod_cast hcount

/-- C8: the text-alignment computation is total (never raises, never
divides by zero): with no detected lines it returns the neutral `0.5`, and
otherwise it returns (lines within 0.2 rad of horizontal + lines within
0.2 rad of vertical) / total detected lines, which lies in `[0,1]`. -/
theorem text_alignment_spec (angles : List ℚ) :
    (angles = [] → computeTextAlignment angles = 1/2) ∧
    (angles ≠ [] → computeTextAlignment angles =
      ((angles.countP (fun θ => decide (|θ| < 1/5)) +
        angles.countP (fun θ => decide (|θ - piQ/2| < 1/5)) : Nat) : ℚ) /
        (angles.length : ℚ)) ∧
    0 ≤ computeTextAlignment angles ∧ computeTextAlignment angles ≤ 1 := by
  refine ⟨?_, ?_, computeTextAlignment_bounds angles⟩
  · intro h; subst h; rfl
  · intro h
    have he : angles.isEmpty = false := by
      cases angles with
      | nil => exact absurd rfl h
      | cons a l => rfl
    have hlen : 0 < angles.length := by
      cases angles with
      | nil => exact absurd rfl h
      | cons a l => simp
    unfold computeTextAlignment
    simp [he, hlen]

/-- Witness for C8 at a concrete nonempty angle list. -/
theorem text_alignment_spec_witness :
    computeTextAlignment [0, piQ/2, 1] = 2/3 ∧
    ([0, piQ/2, 1] : List ℚ) ≠ [] :=
  ⟨by
    rw [(text_alignment_spec [0, piQ/2, 1]).2.1 (by simp)]
    norm_num [piQ, List.countP_cons, List.countP_nil, abs_of_nonneg],
   by simp⟩

/-- `ExplainabilityModule._compute_edge_sharpness`
(explainability.py:231-238): Laplacian variance over grayscale, normalized
by 1000 and clamped at 1. -/
def computeEdgeSharpness (gray : List (List Nat)) : ℚ :=
  min (lapVar gray / 1000) 1

/-- `ExplainabilityModule._compute_print_quality`
(explainability.py:297-306): Laplacian variance over grayscale, normalized
by 800 and clamped at 1. -/
def computePrintQuality (gray : List (List Nat)) : ℚ :=
  min (lapVar gray / 800) 1

/-- Per-channel mean colour of a region, `np.mean(q, axis=(0, 1))`. -/
def quadMean (q : Grid) : ℚ × ℚ × ℚ :=
  (meanQ (q.flatten.map (fun p => (p.1 : ℚ))),
   meanQ (q.flatten.map (fun p => (p.2.1 : ℚ))),
   meanQ (q.flatten.map (fun p => (p.2.2 : ℚ))))

/-- The four quadrants `image[:h//2, :w//2]`, `image[:h//2, w//2:]`,
`image[h//2:, :w//2]`, `image[h//2:, w//2:]` of
`_compute_color_consistency`. -/
def quadrantsOf (img : Grid) : List Grid :=
  let h := gridH img
  let w := gridW img
  [(img.take (h/2)).map (fun r => r.take (w/2)),
   (img.take (h/2)).map (fun r => r.drop (w/2)),
   (img.drop (h/2)).map (fun r => r.take (w/2)),
   (img.drop (h/2)).map (fun r => r.drop (w/2))]

/-- `np.var(means, axis=0).mean()` over the four quadrant mean colours:
per-channel variance of the quadrant means, averaged across channels. -/
def quadrantColorVariance (img : Grid) : ℚ :=
  let means := (quadrantsOf img).map quadMean
  meanQ
    [varQ (means.map (fun m => m.1)),
     varQ (means.map (fun m => m.2.1)),
     varQ (means.map (fun m => m.2.2))]

/-- `ExplainabilityModule._compute_color_consistency`
(explainability.py:274-295): split the image into four quadrants, take the
variance of their per-channel mean colours averaged across channels, and
map through `1 - min(variance / 5000, 1)`. -/
def computeColorConsistency (img : Grid) : ℚ :=
  1 - min (quadrantColorVariance img / 5000) 1

/-- `ExplainabilityModule.extract_visual_features`
(explainability.py:184-229) on a decoded uint8 RGB image (for which the
dtype-conversion preamble is the identity).  `angles` models the output of
the external line detector used by the text-alignment feature.  Returns
the feature mapping in insertion order. -/
def extractVisualFeatures (img : Grid) (angles : List ℚ) : List (String × ℚ) :=
  let gray := grayOf img
  let colorCons := computeColorConsistency img
  [("logo_clarity", computeEdgeSharpness gray),
   ("text_alignment_score", computeTextAlignment angles),
   ("color_consistency", colorCons),
   ("print_texture_score", computePrintQuality gray),
   ("edge_sharpness", computeEdgeSharpness gray),
   ("color_deviation", 1 - colorCons)]

theorem quadrantColorVariance_nonneg (img : Grid) :
    0 ≤ quadrantColorVariance img := by
  unfold quadrantColorVariance meanQ
  apply div_nonneg
  · apply List.sum_nonneg
    intro x hx
    simp only [List.mem_cons, List.not_mem_nil, or_false] at hx
    rcases hx with rfl | rfl | rfl <;> exact varQ_nonneg _
  · exact_mod_cast Nat.zero_le _

theorem computeColorConsistency_bounds (img : Grid) :
    0 ≤ computeColorConsistency img ∧ computeColorConsistency img ≤ 1 := by
  unfold computeColorConsistency
  have hmin0 : (0:ℚ) ≤ min (quadrantColorVariance img / 5000) 1 :=
    le_min (div_nonneg (quadrantColorVariance_nonneg img) (by norm_num))
      (by norm_num)
  have hmin1 : min (quadrantColorVariance img / 5000) (1:ℚ) ≤ 1 :=
    min_le_right _ _
  constructor <;> linarith

/-- C5: for every well-formed decoded image (and any detector output),
every entry of the `FeatureVector` returned by `extract_visual_features`
lies in `[0,1]`, and the returned `color_deviation` equals exactly
`1 - color_consistency` (the returned value). -/
theorem extract_visual_features_spec (img : Grid) (angles : List ℚ)
    (h w : Nat) (hrect : Rect img h w) (hh : 2 ≤ h) (hw : 2 ≤ w) :
    (∀ p ∈ extractVisualFeatures img angles, 0 ≤ p.2 ∧ p.2 ≤ 1) ∧
    (extractVisualFeatures img angles).lookup "color_deviation" =
      ((extractVisualFeatures img angles).lookup "color_consistency").map
        (fun c => 1 - c) := by
  have hes : 0 ≤ computeEdgeSharpness (grayOf img) ∧
      computeEdgeSharpness (grayOf img) ≤ 1 := by
    unfold computeEdgeSharpness
    exact ⟨le_min (div_nonneg (lapVar_nonneg _) (by norm_num)) (by norm_num),
      min_le_right _ _⟩
  have hpq : 0 ≤ computePrintQuality (grayOf img) ∧
      computePrintQuality (grayOf img) ≤ 1 := by
    unfold computePrintQuality
    exact ⟨le_min (div_nonneg (lapVar_nonneg _) (by norm_num)) (by norm_num),
      min_le_right _ _⟩
  have hta := computeTextAlignment_bounds angles
  have hcc := computeColorConsistency_bounds img
  constructor
  · intro p hp
    simp only [extractVisualFeatures, List.mem_cons, List.not_mem_nil,
      or_false] at hp
    rcases hp with rfl | rfl | rfl | rfl | rfl | rfl
    · exact hes
    · exact hta
    · exact hcc
    · exact hpq
    · exact hes
    · constructor
      · show (0:ℚ) ≤ 1 - computeColorConsistency img
        linarith [hcc.2]
      · show (1:ℚ) - computeColorConsistency img ≤ 1
        linarith [hcc.1]
  · simp [extractVisualFeatures, List.lookup]

/-- Witness for C5 at a concrete 2×2 image with one detected line. -/
theorem extract_visual_features_spec_witness :
    Rect ([[(10,20,30),(40,50,60)],[(70,80,90),(100,110,120)]] : Grid) 2 2 ∧
    ∀ p ∈ extractVisualFeatures
        ([[(10,20,30),(40,50,60)],[(70,80,90),(100,110,120)]] : Grid)
        [0], 0 ≤ p.2 ∧ p.2 ≤ 1 :=
  ⟨by decide,
   (extract_visual_features_spec
      ([[(10,20,30),(40,50,60)],[(70,80,90),(100,110,120)]] : Grid)
      [0] 2 2 (by decide) (by decide) (by decide)).1⟩

/-- `features.get(key, default)` on the feature mapping. -/
def fget (features : List (String × ℚ)) (key : String) (default : ℚ) : ℚ :=
  (features.lookup key).getD default

/-- The three generic fallback sentences appended for the `"Fake"` label
(explainability.py:383-387). -/
def fakeFallback : List String :=
  ["Overall visual quality is below authentic product standards",
   "Packaging details show inconsistencies with genuine products",
   "Manufacturing quality appears lower than expected for authentic items"]

/-- The three generic fallback sentences appended for the `"Original"`
label (explainability.py:389-393). -/
def originalFallback : List String :=
  ["Overall visual quality meets authentic product standards",
   "Packaging details are consistent with genuine products",
   "Manufacturing quality appears consistent with authentic items"]

/-- The label-specific threshold rules and confidence-tier rule of
`ExplainabilityModule.generate_textual_reasons`
(explainability.py:325-378): the reason list before the fallback block. -/
def ruleReasons (features : List (String × ℚ)) (prediction : String)
    (confidence : ℚ) : List String :=
  if prediction = "Fake" then
    (if fget features "logo_clarity" 1 < 3/5 then
      ["Logo appears blurry or poorly printed compared to authentic products"]
    else []) ++
    (if fget features "text_alignment_score" 1 < 7/10 then
      ["Text alignment is inconsistent with genuine packaging standards"]
    else []) ++
    (if fget features "color_deviation" 0 > 3/10 then
      ["Color scheme differs from authentic packaging"]
    else []) ++
    (if fget features "print_texture_score" 1 < 13/20 then
      ["Print quality shows signs of low-resolution reproduction"]
    else []) ++
    (if fget features "edge_sharpness" 1 < 1/2 then
      ["Packaging edges lack the crispness of genuine products"]
    else []) ++
    (if confidence > 85 then
      ["Multiple visual indicators strongly suggest counterfeit packaging"]
    else if confidence > 70 then
      ["Several visual features indicate potential counterfeit"]
    else [])
  else
    (if fget features "logo_clarity" 0 > 7/10 then
      ["Logo shows clear, high-quality printing consistent with authentic products"]
    else []) ++
    (if fget features "text_alignment_score" 0 > 7/10 then
      ["Text alignment matches professional packaging standards"]
    else []) ++
    (if fget features "color_consistency" 0 > 7/10 then
      ["Color scheme is consistent with authentic packaging"]
    else []) ++
    (if fget features "print_texture_score" 0 > 7/10 then
      ["Print quality indicates professional manufacturing"]
    else []) ++
    (if fget features "edge_sharpness" 0 > 3/5 then
      ["Packaging shows sharp, clean edges typical of genuine products"]
    else []) ++
    (if confidence > 85 then
      ["All visual indicators strongly suggest authentic packaging"]
    else [])

/-- `ExplainabilityModule.generate_textual_reasons`
(explainability.py:308-396): rule reasons, then — when fewer than three
were produced — the three label-specific fallback sentences, truncated to
the first five. -/
def generateTextualReasons (features : List (String × ℚ))
    (prediction : String) (confidence : ℚ) : List String :=
  let reasons := ruleReasons features prediction confidence
  let reasons :=
    if reasons.length < 3 then
      reasons ++ (if prediction = "Fake" then fakeFallback else originalFallback)
    else reasons
  reasons.take 5

theorem generateTextualReasons_length (features : List (String × ℚ))
    (prediction : String) (confidence : ℚ) :
    3 ≤ (generateTextualReasons features prediction confidence).length ∧
    (generateTextualReasons features prediction confidence).length ≤ 5 := by
  unfold generateTextualReasons
  have hfb : (if prediction = "Fake" then fakeFallback else originalFallback).length = 3 := by
    split <;> rfl
  by_cases hr : (ruleReasons features prediction confidence).length < 3
  · simp only [hr, if_true, List.length_take, List.length_append, hfb]
    omega
  · simp only [hr, if_false, List.length_take]
    omega

/-- C2: for every feature mapping, every label in
`{"Original", "Fake"}`, and every confidence value,
`generate_textual_reasons` returns between 3 and 5 strings, and two calls
with identical inputs return identical lists (the embedding is a pure
function of its three arguments). -/
theorem generate_textual_reasons_spec (features : List (String × ℚ))
    (prediction : String) (confidence : ℚ)
    (hlabel : prediction = "Original" ∨ prediction = "Fake") :
    3 ≤ (generateTextualReasons features prediction confidence).length ∧
    (generateTextualReasons features prediction confidence).length ≤ 5 ∧
    ∀ features' prediction' confidence', features' = features →
      prediction' = prediction → confidence' = confidence →
      generateTextualReasons features' prediction' confidence' =
        generateTextualReasons features prediction confidence := by
  refine ⟨(generateTextualReasons_length features prediction confidence).1,
    (generateTextualReasons_length features prediction confidence).2, ?_⟩
  intro f' p' c' hf hp hc
  subst hf; subst hp; subst hc
  rfl

/-- Witness for C2 at a concrete call. -/
theorem generate_textual_reasons_spec_witness :
    3 ≤ (generateTextualReasons [] "Fake" 0).length ∧
    (generateTextualReasons [] "Fake" 0).length ≤ 5 :=
  ⟨(generate_textual_reasons_spec [] "Fake" 0 (Or.inr rfl)).1,
   (generate_textual_reasons_spec [] "Fake" 0 (Or.inr rfl)).2.1⟩

/-- Counterexample for C4: a `"Fake"` call whose rules produce exactly two
reasons returns five reasons, not three — the code appends all three
fallback sentences at once rather than stopping at three. -/
theorem generate_reasons_two_rules_counterexample :
    (ruleReasons
        [("logo_clarity", 1/2), ("text_alignment_score", 1/2),
         ("color_deviation", 0), ("print_texture_score", 1),
         ("edge_sharpness", 1)] "Fake" 50).length = 2 ∧
    ¬ (generateTextualReasons
        [("logo_clarity", 1/2), ("text_alignment_score", 1/2),
         ("color_deviation", 0), ("print_texture_score", 1),
         ("edge_sharpness", 1)] "Fake" 50).length = 3 := by
  constructor <;>
    · simp [generateTextualReasons, ruleReasons, fget, List.lookup,
        fakeFallback]
      norm_num

/-- C4 (amended): whenever the rules produce fewer than 3 reasons, all
three generic fallback sentences (fixed per label) are appended and the
list is truncated to at most 5, so the result has `min (rules + 3) 5 ≥ 3`
reasons; in particular exactly two rule reasons yield five reasons. -/
theorem generate_reasons_fallback_amended (features : List (String × ℚ))
    (prediction : String) (confidence : ℚ)
    (hlt : (ruleReasons features prediction confidence).length < 3) :
    generateTextualReasons features prediction confidence =
      (ruleReasons features prediction confidence ++
        (if prediction = "Fake" then fakeFallback else originalFallback)).take 5 ∧
    (generateTextualReasons features prediction confidence).length =
      min ((ruleReasons features prediction confidence).length + 3) 5 ∧
    3 ≤ (generateTextualReasons features prediction confidence).length := by
  have hfb : (if prediction = "Fake" then fakeFallback else originalFallback).length = 3 := by
    split <;> rfl
  have hout : generateTextualReasons features prediction confidence =
      (ruleReasons features prediction confidence ++
        (if prediction = "Fake" then fakeFallback else originalFallback)).take 5 := by
    show (if (ruleReasons features prediction confidence).length < 3 then
        ruleReasons features prediction confidence ++
          (if prediction = "Fake" then fakeFallback else originalFallback)
      else ruleReasons features prediction confidence).take 5 = _
    rw [if_pos hlt]
  refine ⟨hout, ?_, ?_⟩ <;>
    rw [hout] <;> simp only [List.length_take, List.length_append, hfb] <;>
    omega

/-- Witness for the amended C4 at a two-rule-reason call. -/
theorem generate_reasons_fallback_amended_witness :
    (ruleReasons [("logo_clarity", 1/2)] "Fake" 75).length < 3 ∧
    (generateTextualReasons [("logo_clarity", 1/2)] "Fake" 75).length =
      min ((ruleReasons [("logo_clarity", 1/2)] "Fake" 75).length + 3) 5 :=
  ⟨by simp [ruleReasons, fget, List.lookup]; norm_num,
   (generate_reasons_fallback_amended [("logo_clarity", 1/2)] "Fake" 75
      (by simp [ruleReasons, fget, List.lookup]; norm_num)).2.1⟩

/-- The fixed reference vector of "authentic" feature scores
(explainability.py:415-421). -/
def referenceFeatures : List (String × ℚ) :=
  [("logo_clarity", 3/4), ("text_alignment_score", 4/5),
   ("color_consistency", 3/4), ("print_texture_score", 7/10),
   ("edge_sharpness", 13/20)]

/-- The per-feature comparison entries of
`ExplainabilityModule.compare_with_reference`
(explainability.py:423-431): for each input feature present in the
reference vector, `"{name}_similarity" ↦ max(0, 1 - |value - reference|)`. -/
def perFeatureComparison (features : List (String × ℚ)) : List (String × ℚ) :=
  features.filterMap (fun fv =>
    (referenceFeatures.lookup fv.1).map (fun refValue =>
      (fv.1 ++ "_similarity", max 0 (1 - |fv.2 - refValue|))))

/-- `ExplainabilityModule.compare_with_reference`
(explainability.py:398-437); the unused `category` parameter is omitted.
When any per-feature entry exists, `overall_similarity` (the mean of the
entries' values) is appended. -/
def compareWithReference (features : List (String × ℚ)) : List (String × ℚ) :=
  let comparison := perFeatureComparison features
  if comparison.isEmpty then comparison
  else comparison ++
    [("overall_similarity", meanQ (comparison.map (fun c => c.2)))]

theorem perFeatureComparison_key_ne (features : List (String × ℚ))
    (p : String × ℚ) (hp : p ∈ perFeatureComparison features) :
    p.1 ≠ "overall_similarity" := by
  obtain ⟨⟨n, v⟩, _, hf⟩ := List.mem_filterMap.mp hp
  rw [Option.map_eq_some'] at hf
  obtain ⟨r, hr, rfl⟩ := hf
  simp only [referenceFeatures, List.lookup] at hr
  by_cases h1 : n = "logo_clarity"
  · subst h1; simp
  by_cases h2 : n = "text_alignment_score"
  · subst h2; simp
  by_cases h3 : n = "color_consistency"
  · subst h3; simp
  by_cases h4 : n = "print_texture_score"
  · subst h4; simp
  by_cases h5 : n = "edge_sharpness"
  · subst h5; simp
  have e1 : (n == "logo_clarity") = false := beq_eq_false_iff_ne.mpr h1
  have e2 : (n == "text_alignment_score") = false := beq_eq_false_iff_ne.mpr h2
  have e3 : (n == "color_consistency") = false := beq_eq_false_iff_ne.mpr h3
  have e4 : (n == "print_texture_score") = false := beq_eq_false_iff_ne.mpr h4
  have e5 : (n == "edge_sharpness") = false := beq_eq_false_iff_ne.mpr h5
  rw [e1, e2, e3, e4, e5] at hr
  exact absurd hr (by simp)

theorem lookup_append_singleton (l : List (String × ℚ)) (k : String) (m : ℚ)
    (h : ∀ p ∈ l, p.1 ≠ k) : (l ++ [(k, m)]).lookup k = some m := by
  induction l with
  | nil => simp [List.lookup]
  | cons a t ih =>
    rw [List.cons_append]
    have ha : (k == a.1) = false :=
      beq_eq_false_iff_ne.mpr (fun he => (h a (by simp)) he.symm)
    obtain ⟨a1, a2⟩ := a
    show List.lookup k ((a1, a2) :: (t ++ [(k, m)])) = some m
    simp only [List.lookup, ha]
    exact ih (fun p hp => h p (by simp [hp]))

/-- C7: `compare_with_reference` maps each input feature present in the
fixed reference vector to `max(0, 1 - |value - reference|)` (a value in
`[0,1]`) under the key `"{feature}_similarity"`, appends
`overall_similarity` equal to the arithmetic mean of the per-feature
similarities whenever at least one exists, and returns an empty mapping
(with no `overall_similarity` key) on empty input. -/
theorem compare_with_reference_spec (features : List (String × ℚ)) :
    (∀ n v, (n, v) ∈ features → ∀ r, referenceFeatures.lookup n = some r →
      ((n ++ "_similarity", max 0 (1 - |v - r|)) ∈ compareWithReference features ∧
       0 ≤ max 0 (1 - |v - r|) ∧ max 0 (1 - |v - r|) ≤ 1)) ∧
    (perFeatureComparison features ≠ [] →
      (compareWithReference features).lookup "overall_similarity" =
        some (meanQ ((perFeatureComparison features).map (fun c => c.2)))) ∧
    (features = [] → compareWithReference features = []) := by
  refine ⟨?_, ?_, ?_⟩
  · intro n v hin r hr
    have hmem : (n ++ "_similarity", max 0 (1 - |v - r|)) ∈
        perFeatureComparison features := by
      apply List.mem_filterMap.mpr
      refine ⟨(n, v), hin, ?_⟩
      show (referenceFeatures.lookup n).map _ = some _
      rw [hr]
      rfl
    have hne : perFeatureComparison features ≠ [] :=
      List.ne_nil_of_mem hmem
    have hie : (perFeatureComparison features).isEmpty = false := by
      cases hpc : perFeatureComparison features with
      | nil => exact absurd hpc hne
      | cons a t => rfl
    refine ⟨?_, le_max_left _ _, ?_⟩
    · show (n ++ "_similarity", max 0 (1 - |v - r|)) ∈
        (if (perFeatureComparison features).isEmpty then
          perFeatureComparison features
        else perFeatureComparison features ++
          [("overall_similarity",
            meanQ ((perFeatureComparison features).map (fun c => c.2)))])
      rw [hie]
      simp only [Bool.false_eq_true, if_false]
      exact List.mem_append_left _ hmem
    · apply max_le (by norm_num)
      have := abs_nonneg (v - r)
      linarith
  · intro hne
    have hie : (perFeatureComparison features).isEmpty = false := by
      cases hpc : perFeatureComparison features with
      | nil => exact absurd hpc hne
      | cons a t => rfl
    show (if (perFeatureComparison features).isEmpty then
        perFeatureComparison features
      else perFeatureComparison features ++
        [("overall_similarity",
          meanQ ((perFeatureComparison features).map (fun c => c.2)))]).lookup
        "overall_similarity" = _
    rw [hie]
    simp only [Bool.false_eq_true, if_false]
    exact lookup_append_singleton _ _ _
      (fun p hp => perFeatureComparison_key_ne features p hp)
  · intro h
    subst h
    rfl

/-- Witness for C7 at a one-feature mapping matching the reference. -/
theorem compare_with_reference_spec_witness :
    ("logo_clarity" ++ "_similarity", max 0 (1 - |(3:ℚ)/4 - 3/4|)) ∈
      compareWithReference [("logo_clarity", 3/4)] ∧
    (compareWithReference [("logo_clarity", 3/4)]).lookup "overall_similarity" =
      some (meanQ ((perFeatureComparison [("logo_clarity", 3/4)]).map
        (fun c => c.2))) :=
  ⟨((compare_with_reference_spec [("logo_clarity", 3/4)]).1 "logo_clarity"
      (3/4) (by simp) (3/4) rfl).1,
   (compare_with_reference_spec [("logo_clarity", 3/4)]).2.1
      (by simp [perFeatureComparison, referenceFeatures, List.lookup])⟩

/-- The result of a successful `PIL.Image.open` + `verify` on the input
bytes: declared format, dimensions and colour mode. `none` models the
open/verify call raising (undecodable bytes). -/
structure PILImage where
  format : String
  width : Nat
  height : Nat
  mode : String

/-- The colour modes `validate_image` accepts. -/
def allowedModes : List String := ["RGB", "RGBA", "L", "P"]

/-- The format/dimension/mode checks of `validate_image` once PIL has
opened the image (preprocessor.py:56-82). -/
def validatePil (p : PILImage) (allowed : List String) : Bool × String :=
  if p.format ∉ allowed then
    (false, "Unsupported file format: " ++ p.format ++
      ". Allowed formats: " ++ String.intercalate ", " allowed)
  else if p.width < 50 ∨ p.height < 50 then
    (false, "Image dimensions too small (minimum 50x50 pixels)")
  else if p.width > 10000 ∨ p.height > 10000 then
    (false, "Image dimensions too large (maximum 10000x10000 pixels)")
  else if p.mode ∉ allowedModes then
    (false, "Unsupported image mode: " ++ p.mode)
  else (true, "")

/-- `ImagePreprocessor.validate_image` (preprocessor.py:34-85),
parameterized by the configured size limit in megabytes (`max_file_size_mb`,
default 10) and the uppercased allowed-format list, and by the outcome of
the external PIL open/verify call (`pil`, with `excMsg` the exception text
when it raises). Returns `(is_valid, error_message)`. -/
def validateImage (bytesLen : Nat) (maxMb : Nat) (allowed : List String)
    (pil : Option PILImage) (excMsg : String) : Bool × String :=
  if bytesLen = 0 then (false, "Image file is empty")
  else if bytesLen > maxMb * 1024 * 1024 then
    (false, "Image file exceeds " ++ toString maxMb ++ "MB limit")
  else
    match pil with
    | none => (false, "Unable to decode image file: " ++ excMsg)
    | some p => validatePil p allowed

theorem validatePil_false_msg (p : PILImage) (allowed : List String)
    (hf : (validatePil p allowed).1 = false) :
    (validatePil p allowed).2 ≠ "" := by
  unfold validatePil at *
  by_cases h3 : p.format ∉ allowed
  · rw [if_pos h3] at *
    intro hc
    have h2 := congrArg String.length hc
    rw [String.length_append, String.length_append,
      String.length_append] at h2
    simp at h2
    exact absurd h2.1.1.1 (by decide)
  rw [if_neg h3] at *
  by_cases h4 : p.width < 50 ∨ p.height < 50
  · rw [if_pos h4] at *
    decide
  rw [if_neg h4] at *
  by_cases h5 : p.width > 10000 ∨ p.height > 10000
  · rw [if_pos h5] at *
    decide
  rw [if_neg h5] at *
  by_cases h6 : p.mode ∉ allowedModes
  · rw [if_pos h6] at *
    intro hc
    have h2 := congrArg String.length hc
    rw [String.length_append] at h2
    simp at h2
    exact absurd h2.1 (by decide)
  rw [if_neg h6] at *
  exact absurd hf (by decide)

theorem validateImage_false_msg (bytesLen maxMb : Nat)
    (allowed : List String) (pil : Option PILImage) (excMsg : String)
    (hf : (validateImage bytesLen maxMb allowed pil excMsg).1 = false) :
    (validateImage bytesLen maxMb allowed pil excMsg).2 ≠ "" := by
  unfold validateImage at *
  by_cases h0 : bytesLen = 0
  · rw [if_pos h0] at *
    decide
  rw [if_neg h0] at *
  by_cases h1 : bytesLen > maxMb * 1024 * 1024
  · rw [if_pos h1] at *
    intro hc
    have h2 := congrArg String.length hc
    rw [String.length_append, String.length_append] at h2
    simp at h2
    exact absurd h2.1.1 (by decide)
  rw [if_neg h1] at *
  cases pil with
  | none =>
    intro hc
    have h2 := congrArg String.length hc
    rw [String.length_append] at h2
    simp at h2
    exact absurd h2.1 (by decide)
  | some p =>
    have hf2 : (validatePil p allowed).1 = false := hf
    exact validatePil_false_msg p allowed hf2

/-- C6: `validate_image` always returns a structured `(is_valid, reason)`
pair — every failure carries a nonempty reason; a 0-byte buffer fails with
the empty-file reason (before any decode is attempted), and a well-formed
30×30 image of an allowed format fails with the minimum-dimension
reason. -/
theorem validate_image_spec :
    (∀ maxMb allowed pil excMsg,
      validateImage 0 maxMb allowed pil excMsg =
        (false, "Image file is empty")) ∧
    (∀ bytesLen maxMb allowed fmt wd ht mode excMsg, 0 < bytesLen →
      bytesLen ≤ maxMb * 1024 * 1024 → fmt ∈ allowed →
      wd < 50 ∨ ht < 50 →
      validateImage bytesLen maxMb allowed
        (some ⟨fmt, wd, ht, mode⟩) excMsg =
        (false, "Image dimensions too small (minimum 50x50 pixels)")) ∧
    (∀ bytesLen maxMb allowed pil excMsg,
      (validateImage bytesLen maxMb allowed pil excMsg).1 = false →
      (validateImage bytesLen maxMb allowed pil excMsg).2 ≠ "") := by
  refine ⟨?_, ?_, validateImage_false_msg⟩
  · intro maxMb allowed pil excMsg
    rfl
  · intro bytesLen maxMb allowed fmt wd ht mode excMsg hpos hle hfmt hdim
    unfold validateImage
    rw [if_neg (by omega), if_neg (by omega)]
    show validatePil ⟨fmt, wd, ht, mode⟩ allowed = _
    unfold validatePil
    rw [if_neg (not_not_intro hfmt), if_pos hdim]

/-- Witness for C6 at a concrete 30×30 JPEG. -/
theorem validate_image_spec_witness :
    validateImage 100 10 ["JPEG"] (some ⟨"JPEG", 30, 30, "RGB"⟩) "" =
      (false, "Image dimensions too small (minimum 50x50 pixels)") :=
  validate_image_spec.2.1 100 10 ["JPEG"] "JPEG" 30 30 "RGB" ""
    (by norm_num) (by norm_num) (by simp) (by norm_num)

/-- The `"simple"` branch of `normalize_pixels`: scale to `[0,1]` by
dividing each channel by 255. -/
def normalizeSimple (img : Grid) : QGrid :=
  img.map (fun row => row.map (fun p =>
    ((p.1 : ℚ) / 255, (p.2.1 : ℚ) / 255, (p.2.2 : ℚ) / 255)))

/-- The `"standard"` branch of `normalize_pixels`: per-channel ImageNet
normalization, subtracting `mean*255` and dividing by `std*255`. -/
def normalizeStandard (img : Grid) : QGrid :=
  img.map (fun row => row.map (fun p =>
    (((p.1 : ℚ) - (485/1000) * 255) / ((229/1000) * 255),
     ((p.2.1 : ℚ) - (456/1000) * 255) / ((224/1000) * 255),
     ((p.2.2 : ℚ) - (406/1000) * 255) / ((225/1000) * 255))))

/-- `ImagePreprocessor.normalize_pixels` (preprocessor.py:265-295):
`"simple"` scales to `[0,1]`, `"standard"` applies ImageNet statistics,
any other method raises `ValueError` naming the unknown method. -/
def normalizePixels (img : Grid) (method : String) : Except String QGrid :=
  if method = "simple" then .ok (normalizeSimple img)
  else if method = "standard" then .ok (normalizeStandard img)
  else .error ("Unknown normalization method: " ++ method)

/-- C9: for every image and every method string other than `"simple"` and
`"standard"`, `normalize_pixels` raises a `ValueError` naming the unknown
method, and those two methods are the only ones that succeed. -/
theorem normalize_pixels_unknown_method_spec :
    (∀ (img : Grid) (method : String),
      method ≠ "simple" → method ≠ "standard" →
      normalizePixels img method =
        .error ("Unknown normalization method: " ++ method)) ∧
    (∀ (img : Grid) (method : String) (t : QGrid),
      normalizePixels img method = .ok t →
      method = "simple" ∨ method = "standard") := by
  constructor
  · intro img method h1 h2
    unfold normalizePixels
    rw [if_neg h1, if_neg h2]
  · intro img method t hok
    by_cases h1 : method = "simple"
    · exact Or.inl h1
    by_cases h2 : method = "standard"
    · exact Or.inr h2
    unfold normalizePixels at hok
    rw [if_neg h1, if_neg h2] at hok
    exact absurd hok (by simp)

/-- Witness for C9 at a concrete unknown method string. -/
theorem normalize_pixels_unknown_method_spec_witness :
    normalizePixels [] "minmax" =
      .error ("Unknown normalization method: " ++ "minmax") :=
  normalize_pixels_unknown_method_spec.1 [] "minmax"
    (by decide) (by decide)

/-- A value of the metadata dictionary built by `preprocess`. -/
inductive MetaVal where
  | nat (n : Nat)
  | str (s : String)
  | rat (q : ℚ)
  | bool (b : Bool)
  | strList (l : List String)
deriving DecidableEq

/-- `ImagePreprocessor.preprocess` (preprocessor.py:297-375).  External
library transformations are parameters: `reduceGlareFn` (bilateral
filter), `normalizeLightingFn` (CLAHE), `detectPrimaryProductFn`
(center crop), `resizeFn` (Lanczos resize to the target size).  The PIL
open outcome (`pil`, `excMsg`) and the decode outcome (`decodeRes`, with
`.inr e` modelling a decode exception) are likewise inputs.  Returns
`(preprocessed_image, metadata, error_message)`. -/
def preprocess (maxMb : Nat) (allowed : List String) (targetSize : Nat)
    (reduceGlareFn normalizeLightingFn detectPrimaryProductFn : Grid → Grid)
    (resizeFn : Grid → Nat → Grid)
    (bytesLen : Nat) (pil : Option PILImage) (excMsg : String)
    (decodeRes : Grid ⊕ String)
    (applyLightingNorm applyGlareReduction detectProduct : Bool) :
    Option QGrid × List (String × MetaVal) × String :=
  let v := validateImage bytesLen maxMb allowed pil excMsg
  if v.1 = false then (none, [], v.2)
  else
    match decodeRes with
    | .inr e => (none, [], "Failed to decode image: " ++ e)
    | .inl image =>
      let originalHeight := gridH image
      let originalWidth := gridW image
      let imageFormat :=
        match pil with
        | some p => p.format
        | none => "UNKNOWN"
      let q := assessImageQuality image
      let qualityScore := q.1
      let hasGlare := q.2
      let step1 :=
        if applyGlareReduction && hasGlare then
          (reduceGlareFn image, ["glare_reduction"])
        else (image, [])
      let step2 :=
        if applyLightingNorm then
          (normalizeLightingFn step1.1, step1.2 ++ ["lighting_normalization"])
        else step1
      let step3 :=
        if detectProduct then
          (detectPrimaryProductFn step2.1, step2.2 ++ ["product_detection"])
        else step2
      let image4 := resizeFn step3.1 targetSize
      let steps4 := step3.2 ++ ["resize"]
      let tensor := normalizeSimple image4
      let steps5 := steps4 ++ ["normalize"]
      let metadata : List (String × MetaVal) :=
        [("original_width", .nat originalWidth),
         ("original_height", .nat originalHeight),
         ("file_format", .str imageFormat),
         ("file_size_bytes", .nat bytesLen),
         ("quality_score", .rat qualityScore),
         ("has_glare", .bool hasGlare),
         ("preprocessing_applied", .strList steps5)]
      (some tensor, metadata, "")

/-- C10: whenever the preprocessing pipeline fails (at validation or
decode, the only failing stages), it returns the image as `None`, the
metadata as exactly the empty mapping, and a nonempty error string; and
the full seven-field metadata record is produced exactly on success. -/
theorem preprocess_failure_spec (maxMb : Nat) (allowed : List String)
    (targetSize : Nat)
    (reduceGlareFn normalizeLightingFn detectPrimaryProductFn : Grid → Grid)
    (resizeFn : Grid → Nat → Grid)
    (bytesLen : Nat) (pil : Option PILImage) (excMsg : String)
    (decodeRes : Grid ⊕ String)
    (applyLightingNorm applyGlareReduction detectProduct : Bool) :
    ((preprocess maxMb allowed targetSize reduceGlareFn normalizeLightingFn
        detectPrimaryProductFn resizeFn bytesLen pil excMsg decodeRes
        applyLightingNorm applyGlareReduction detectProduct).2.2 ≠ "" →
      (preprocess maxMb allowed targetSize reduceGlareFn normalizeLightingFn
        detectPrimaryProductFn resizeFn bytesLen pil excMsg decodeRes
        applyLightingNorm applyGlareReduction detectProduct).1 = none ∧
      (preprocess maxMb allowed targetSize reduceGlareFn normalizeLightingFn
        detectPrimaryProductFn resizeFn bytesLen pil excMsg decodeRes
        applyLightingNorm applyGlareReduction detectProduct).2.1 = []) ∧
    ((preprocess maxMb allowed targetSize reduceGlareFn normalizeLightingFn
        detectPrimaryProductFn resizeFn bytesLen pil excMsg decodeRes
        applyLightingNorm applyGlareReduction detectProduct).2.2 = "" →
      (preprocess maxMb allowed targetSize reduceGlareFn normalizeLightingFn
        detectPrimaryProductFn resizeFn bytesLen pil excMsg decodeRes
        applyLightingNorm applyGlareReduction detectProduct).1.isSome ∧
      ((preprocess maxMb allowed targetSize reduceGlareFn normalizeLightingFn
        detectPrimaryProductFn resizeFn bytesLen pil excMsg decodeRes
        applyLightingNorm applyGlareReduction detectProduct).2.1).map
          Prod.fst =
        ["original_width", "original_height", "file_format",
         "file_size_bytes", "quality_score", "has_glare",
         "preprocessing_applied"]) := by
  unfold preprocess
  by_cases hv : (validateImage bytesLen maxMb allowed pil excMsg).1 = false
  · rw [if_pos hv]
    constructor
    · intro _
      exact ⟨rfl, rfl⟩
    · intro hemp
      exact absurd hemp
        (validateImage_false_msg bytesLen maxMb allowed pil excMsg hv)
  · rw [if_neg hv]
    cases decodeRes with
    | inr e =>
      constructor
      · intro _
        exact ⟨rfl, rfl⟩
      · intro hemp
        exfalso
        have h2 := congrArg String.length hemp
        rw [String.length_append] at h2
        simp at h2
        exact absurd h2.1 (by decide)
    | inl image =>
      constructor
      · intro hne
        exact absurd rfl hne
      · intro _
        exact ⟨rfl, rfl⟩

/-- Witness for C10 at a failing (0-byte) and a succeeding run. -/
theorem preprocess_failure_spec_witness :
    (preprocess 10 ["JPEG"] 224 id id id (fun g _ => g) 0 none ""
        (Sum.inr "x") true true false).2.2 ≠ "" ∧
    (preprocess 10 ["JPEG"] 224 id id id (fun g _ => g) 0 none ""
        (Sum.inr "x") true true false).1 = none ∧
    (preprocess 10 ["JPEG"] 224 id id id (fun g _ => g) 0 none ""
        (Sum.inr "x") true true false).2.1 = [] :=
  ⟨by decide,
   (preprocess_failure_spec 10 ["JPEG"] 224 id id id (fun g _ => g) 0 none ""
      (Sum.inr "x") true true false).1 (by decide)⟩

/-- C1: in a successful run of the pipeline with the flags used by the
classification endpoint (`apply_lighting_norm=True`,
`apply_glare_reduction=True`, `detect_product=False`), the image the
pipeline returns — the very value the endpoint then passes to
`extract_visual_features` — is the pixel-normalized resize of the
lighting-normalized (and possibly glare-reduced) decoded image, not the
original decoded image. -/
theorem preprocess_output_is_transformed_tensor (maxMb : Nat)
    (allowed : List String) (targetSize : Nat)
    (reduceGlareFn normalizeLightingFn detectPrimaryProductFn : Grid → Grid)
    (resizeFn : Grid → Nat → Grid)
    (bytesLen : Nat) (pil : Option PILImage) (excMsg : String)
    (image : Grid)
    (hval : (validateImage bytesLen maxMb allowed pil excMsg).1 = true) :
    (preprocess maxMb allowed targetSize reduceGlareFn normalizeLightingFn
        detectPrimaryProductFn resizeFn bytesLen pil excMsg
        (Sum.inl image) true true false).1 =
      some (normalizeSimple (resizeFn
        (normalizeLightingFn
          (if (assessImageQuality image).2 then reduceGlareFn image
           else image)) targetSize)) := by
  unfold preprocess
  rw [if_neg (by rw [hval]; exact fun hc => Bool.noConfusion hc)]
  cases hg : (assessImageQuality image).2 <;>
    simp [hg]

/-- Witness for C1 at a concrete successful run with identity collaborator
functions. -/
theorem preprocess_output_is_transformed_tensor_witness :
    (validateImage 100 10 ["JPEG"]
        (some ⟨"JPEG", 50, 50, "RGB"⟩) "").1 = true ∧
    (preprocess 10 ["JPEG"] 224 id id id (fun g _ => g) 100
        (some ⟨"JPEG", 50, 50, "RGB"⟩) ""
        (Sum.inl [[(0,0,0),(0,0,0)],[(0,0,0),(0,0,0)]]) true true false).1 =
      some (normalizeSimple ((fun g _ => g)
        (id (if (assessImageQuality
                  [[(0,0,0),(0,0,0)],[(0,0,0),(0,0,0)]]).2 then
              id [[(0,0,0),(0,0,0)],[(0,0,0),(0,0,0)]]
            else [[(0,0,0),(0,0,0)],[(0,0,0),(0,0,0)]])) 224)) :=
  ⟨by decide,
   preprocess_output_is_transformed_tensor 10 ["JPEG"] 224 id id id
     (fun g _ => g) 100 (some ⟨"JPEG", 50, 50, "RGB"⟩) ""
     [[(0,0,0),(0,0,0)],[(0,0,0),(0,0,0)]] (by decide)⟩

end FakeDetect
